import Mathlib

/-!
Verification development for the `crypto/x509util` certificate-profile
subsystem: a shallow embedding of the Go sources (`rootProfile.go`, the
intermediate profile file, the leaf profile file) together with a model of
the profile/option machinery (`profile.go`), which is outside the inspected
source slice and is therefore modelled from the specification.

Conventions of the embedding:
* Go `time.Duration` values and timestamps are nanosecond counts in `Int`;
  `time.Now()` is passed in explicitly as a `now` parameter.
* Go pointers `*x509.Certificate` are modelled by a small heap: a `Profile`
  carries a `store : List Certificate` and indices `subRef`, `issRef` into
  it, so that pointer identity (as opposed to an independent copy) is
  index equality.
* `crypto.PublicKey` / `crypto.PrivateKey` are opaque handles (`Nat`);
  Go `nil` is `Option.none`.  The external key-generation collaborator is
  modelled by an oracle argument `fresh : Nat × Nat` (private, public).
-/

namespace X509Util

/-- `pkix.Name`, restricted to the only field this package ever sets or
reads: the common name.  Whole `pkix.Name` values are copied around by the
source, which this projection preserves. -/
structure PkixName where
  commonName : String
deriving DecidableEq, Repr, Inhabited

/-- An opaque `pkix.Extension` carried verbatim from a certificate request
into the draft (`sub.ExtraExtensions = csr.Extensions`). -/
structure Extension where
  id : List Nat
  critical : Bool
  value : List Nat
deriving DecidableEq, Repr, Inhabited

/-- The fields of Go's `x509.Certificate` that the inspected sources read or
write.  `keyUsage` is the `x509.KeyUsage` bitmask; `extKeyUsage` holds the
numeric values of the `x509.ExtKeyUsage` enumeration; object identifiers are
integer lists.  Fields left unset by a Go composite literal get their zero
value (`[]`, `none`, `false`, `0`). -/
structure Certificate where
  isCA : Bool := false
  notBefore : Int := 0
  notAfter : Int := 0
  policyIdentifiers : List (List Nat) := []
  keyUsage : Nat := 0
  extKeyUsage : List Nat := []
  unknownExtKeyUsage : List (List Nat) := []
  basicConstraintsValid : Bool := false
  maxPathLen : Int := 0
  maxPathLenZero : Bool := false
  issuer : PkixName := default
  subject : PkixName := default
  dnsNames : List String := []
  emailAddresses : List String := []
  ipAddresses : List String := []
  uris : List String := []
  extraExtensions : List Extension := []
  publicKey : Option Nat := none
deriving DecidableEq, Repr, Inhabited

/-- `x509.CertificateRequest`, restricted to the fields
`NewLeafProfileWithCSR` reads. -/
structure CertificateRequest where
  subject : PkixName := default
  publicKey : Option Nat := none
  extensions : List Extension := []
  dnsNames : List String := []
  emailAddresses : List String := []
  ipAddresses : List String := []
  uris : List String := []
deriving DecidableEq, Repr, Inhabited

/-- Go's `time.Hour` in nanoseconds. -/
def Hour : Int := 3600 * 1000000000

/-- `DefaultRootCertValidity = time.Hour * 24 * 365 * 10`
(`rootProfile.go`). -/
def DefaultRootCertValidity : Int := Hour * 24 * 365 * 10

/-- `DefaultIntermediateCertValidity = time.Hour * 24 * 365 * 10`
(intermediate profile file). -/
def DefaultIntermediateCertValidity : Int := Hour * 24 * 365 * 10

/-- Modelled from the spec: `DefaultCertValidity`, the default validity of
an end-entity certificate, is defined in a file outside the inspected
slice; the spec fixes only that it is a role-specific shorter default ("on
the order of days").  Modelled as 24 hours.  None of the theorems below
depend on the particular value. -/
def DefaultCertValidity : Int := Hour * 24

/-- `x509.KeyUsageDigitalSignature` (Go: `1 << 0`). -/
def KeyUsageDigitalSignature : Nat := 1

/-- `x509.KeyUsageKeyEncipherment` (Go: `1 << 2`). -/
def KeyUsageKeyEncipherment : Nat := 4

/-- `x509.KeyUsageCertSign` (Go: `1 << 5`). -/
def KeyUsageCertSign : Nat := 32

/-- `x509.KeyUsageCRLSign` (Go: `1 << 6`). -/
def KeyUsageCRLSign : Nat := 64

/-- `x509.ExtKeyUsageAny` (Go enumeration value 0). -/
def ExtKeyUsageAny : Nat := 0

/-- `x509.ExtKeyUsageServerAuth`. -/
def ExtKeyUsageServerAuth : Nat := 1

/-- `x509.ExtKeyUsageClientAuth`. -/
def ExtKeyUsageClientAuth : Nat := 2

/-- `x509.ExtKeyUsageCodeSigning`. -/
def ExtKeyUsageCodeSigning : Nat := 3

/-- `x509.ExtKeyUsageEmailProtection`. -/
def ExtKeyUsageEmailProtection : Nat := 4

/-- `x509.ExtKeyUsageTimeStamping`. -/
def ExtKeyUsageTimeStamping : Nat := 8

/-- `defaultRootTemplate` from `rootProfile.go`, with `time.Now()` passed
in as `now`. -/
def defaultRootTemplate (cn : String) (now : Int) : Certificate :=
  let notBefore := now
  { isCA := true
    notBefore := notBefore
    notAfter := notBefore + DefaultRootCertValidity
    keyUsage := KeyUsageDigitalSignature ||| KeyUsageKeyEncipherment |||
      KeyUsageCertSign ||| KeyUsageCRLSign
    extKeyUsage := [ExtKeyUsageAny, ExtKeyUsageServerAuth, ExtKeyUsageClientAuth,
      ExtKeyUsageCodeSigning, ExtKeyUsageEmailProtection, ExtKeyUsageTimeStamping]
    unknownExtKeyUsage := [
      [1, 3, 6, 1, 4, 1, 311, 20, 2, 2],
      [1, 3, 6, 1, 4, 1, 311, 10, 3, 12],
      [1, 3, 6, 1, 4, 1, 311, 80, 1]]
    basicConstraintsValid := true
    maxPathLen := 1
    maxPathLenZero := false
    issuer := { commonName := cn }
    subject := { commonName := cn } }

/-- `defaultIntermediateTemplate` as defined alongside
`NewIntermediateProfile` in the intermediate profile file
(`src/unnamed/part_000`, lines 30-63), with `time.Now()` passed in as
`now`. -/
def defaultIntermediateTemplate (name : String) (now : Int) : Certificate :=
  let notBefore := now
  { isCA := true
    notBefore := notBefore
    notAfter := notBefore + DefaultIntermediateCertValidity
    policyIdentifiers := [
      [2, 5, 29, 32, 0],
      [2, 23, 140, 1, 1],
      [2, 23, 140, 1, 3]]
    keyUsage := KeyUsageDigitalSignature ||| KeyUsageKeyEncipherment |||
      KeyUsageCertSign ||| KeyUsageCRLSign
    extKeyUsage := [ExtKeyUsageServerAuth, ExtKeyUsageClientAuth,
      ExtKeyUsageCodeSigning, ExtKeyUsageEmailProtection, ExtKeyUsageTimeStamping]
    unknownExtKeyUsage := [
      [1, 3, 6, 1, 4, 1, 311, 20, 2, 2],
      [1, 3, 6, 1, 4, 1, 311, 10, 3, 12],
      [1, 3, 6, 1, 4, 1, 311, 80, 1]]
    basicConstraintsValid := true
    maxPathLen := 0
    maxPathLenZero := true
    issuer := { commonName := name }
    subject := { commonName := name } }

/-- The variant of `defaultIntermediateTemplate` found in
`src/unnamed/part_001` (lines 30-56): extended key usage additionally
contains `ExtKeyUsageAny` and no policy identifiers are set.  Kept for
comparison; `NewIntermediateProfile` below resolves to the template defined
in its own file, `defaultIntermediateTemplate`. -/
def defaultIntermediateTemplateAlt (name : String) (now : Int) : Certificate :=
  let notBefore := now
  { isCA := true
    notBefore := notBefore
    notAfter := notBefore + DefaultIntermediateCertValidity
    keyUsage := KeyUsageDigitalSignature ||| KeyUsageKeyEncipherment |||
      KeyUsageCertSign ||| KeyUsageCRLSign
    extKeyUsage := [ExtKeyUsageAny, ExtKeyUsageServerAuth, ExtKeyUsageClientAuth,
      ExtKeyUsageCodeSigning, ExtKeyUsageEmailProtection, ExtKeyUsageTimeStamping]
    unknownExtKeyUsage := [
      [1, 3, 6, 1, 4, 1, 311, 20, 2, 2],
      [1, 3, 6, 1, 4, 1, 311, 10, 3, 12],
      [1, 3, 6, 1, 4, 1, 311, 80, 1]]
    basicConstraintsValid := true
    maxPathLen := 0
    maxPathLenZero := true
    issuer := { commonName := name }
    subject := { commonName := name } }

/-- `defaultLeafTemplate(sub, iss pkix.Name)` from the leaf profile file,
with `time.Now()` passed in as `now`. -/
def defaultLeafTemplate (sub iss : PkixName) (now : Int) : Certificate :=
  let notBefore := now
  { isCA := false
    notBefore := notBefore
    notAfter := notBefore + DefaultCertValidity
    policyIdentifiers := [
      [2, 5, 29, 32, 0],
      [2, 23, 140, 1, 1],
      [2, 23, 140, 1, 3]]
    keyUsage := KeyUsageDigitalSignature ||| KeyUsageKeyEncipherment
    extKeyUsage := [ExtKeyUsageServerAuth, ExtKeyUsageClientAuth,
      ExtKeyUsageCodeSigning, ExtKeyUsageEmailProtection, ExtKeyUsageTimeStamping]
    unknownExtKeyUsage := [
      [1, 3, 6, 1, 4, 1, 311, 20, 2, 2],
      [1, 3, 6, 1, 4, 1, 311, 10, 3, 12],
      [1, 3, 6, 1, 4, 1, 311, 80, 1]]
    basicConstraintsValid := false
    maxPathLen := 0
    maxPathLenZero := false
    issuer := iss
    subject := sub }

/-- The role tag of a profile.  The source implements Root / Intermediate /
Leaf as three structs embedding a shared `base`; following the spec's
design note the role is modelled as a tag with role-indexed default
durations. -/
inductive Role where
  | root
  | intermediate
  | leaf
deriving DecidableEq, Repr

/-- `DefaultDuration()` of each role: Root and Intermediate from the
inspected files; Leaf's constant is modelled from the spec (see
`DefaultCertValidity`). -/
def Role.DefaultDuration : Role → Int
  | .root => DefaultRootCertValidity
  | .intermediate => DefaultIntermediateCertValidity
  | .leaf => DefaultCertValidity

/-- Modelled from the spec: the assembled `Profile` (the `base` struct of
`profile.go`, which is outside the inspected slice).  It holds the subject
draft, the issuer draft, issuer key material and subject key material.  The
two certificate pointers of the Go struct are the indices `subRef`/`issRef`
into `store`; Root and self-signed Leaf construction passes the same
pointer for both. -/
structure Profile where
  role : Role
  store : List Certificate
  subRef : Nat
  issRef : Nat
  issPriv : Option Nat
  subPriv : Option Nat
  subPub : Option Nat
deriving DecidableEq, Repr

instance : Inhabited Profile :=
  ⟨{ role := .leaf, store := [], subRef := 0, issRef := 0,
     issPriv := none, subPriv := none, subPub := none }⟩

/-- `Subject()` — the certificate the subject pointer refers to. -/
def Profile.Subject (p : Profile) : Certificate :=
  p.store.getD p.subRef default

/-- `Issuer()` — the certificate the issuer pointer refers to. -/
def Profile.Issuer (p : Profile) : Certificate :=
  p.store.getD p.issRef default

/-- `SubjectPrivateKey()`. -/
def Profile.SubjectPrivateKey (p : Profile) : Option Nat :=
  p.subPriv

/-- `SubjectPublicKey()`. -/
def Profile.SubjectPublicKey (p : Profile) : Option Nat :=
  p.subPub

/-- `IssuerPrivateKey()`. -/
def Profile.IssuerPrivateKey (p : Profile) : Option Nat :=
  p.issPriv

/-- `SetIssuerPrivateKey(k)`. -/
def Profile.SetIssuerPrivateKey (p : Profile) (k : Option Nat) : Profile :=
  { p with issPriv := k }

/-- Mutate the certificate object the subject pointer refers to (what a Go
option does through the `Subject()` pointer).  When the issuer pointer is
the same object, the mutation is visible through it as well. -/
def Profile.modifySub (p : Profile) (f : Certificate → Certificate) : Profile :=
  { p with store := p.store.set p.subRef (f p.Subject) }

/-- Modelled from the spec: the option vocabulary of the pipeline
(`profile.go` is outside the inspected slice).  The spec names the built-in
options: substituting the public key (`WithPublicKey`, whose forced use is
visible in the leaf profile file), supplying caller key material,
overriding the validity window, and overriding identity fields. -/
inductive WithOption where
  | withPublicKey (pk : Option Nat)
  | withKeyPair (priv pub : Nat)
  | withValidity (notBefore notAfter : Int)
  | withSubject (n : PkixName)
deriving Repr

/-- The effect of one option on the profile under construction.  All
options of the modelled vocabulary succeed. -/
def applyOne (p : Profile) : WithOption → Profile
  | .withPublicKey pk => { p with subPub := pk }
  | .withKeyPair priv pub => { p with subPriv := some priv, subPub := some pub }
  | .withValidity nb na =>
      p.modifySub fun c => { c with notBefore := nb, notAfter := na }
  | .withSubject n =>
      p.modifySub fun c => { c with subject := n }

/-- Modelled from the spec: one pipeline step — an option either succeeds
or fails with a descriptive error. -/
def applyOption (op : WithOption) (p : Profile) : Except String Profile :=
  .ok (applyOne p op)

/-- Modelled from the spec: the option pipeline applies the caller's list
strictly in order, aborting on the first failure. -/
def applyOptions : List WithOption → Profile → Except String Profile
  | [], p => .ok p
  | op :: ops, p =>
    match applyOption op p with
    | .error e => .error e
    | .ok p' => applyOptions ops p'

/-- Modelled from the spec: after the options have run, a fresh key pair is
obtained from the key-generation collaborator when no caller-supplied or
request-derived public key is available. -/
def genKeyIfNeeded (p : Profile) (fresh : Nat × Nat) : Profile :=
  if p.subPub.isNone then { p with subPriv := some fresh.1, subPub := some fresh.2 }
  else p

/-- Modelled from the spec: `newProfile(p, sub, iss, issPriv, withOps...)`
(`profile.go` is outside the inspected slice).  Role defaults are already
in `store`; the caller's options are applied strictly in order, then key
generation resolves missing key material.  The Go pointer arguments
`sub`/`iss` are the indices `subRef`/`issRef` into `store`. -/
def newProfile (role : Role) (store : List Certificate) (subRef issRef : Nat)
    (issPriv : Option Nat) (withOps : List WithOption) (fresh : Nat × Nat) :
    Except String Profile :=
  match applyOptions withOps
      { role := role, store := store, subRef := subRef, issRef := issRef,
        issPriv := issPriv, subPriv := none, subPub := none } with
  | .error e => .error e
  | .ok p => .ok (genKeyIfNeeded p fresh)

/-- `NewRootProfileWithTemplate(crt, withOps...)` from `rootProfile.go`:
`newProfile(&Root{}, crt, crt, nil, withOps...)` — the same pointer is
passed for subject and issuer — followed by
`p.SetIssuerPrivateKey(p.SubjectPrivateKey())`. -/
def NewRootProfileWithTemplate (crt : Certificate) (withOps : List WithOption)
    (fresh : Nat × Nat) : Except String Profile :=
  match newProfile .root [crt] 0 0 none withOps fresh with
  | .error e => .error e
  | .ok p => .ok (p.SetIssuerPrivateKey p.SubjectPrivateKey)

/-- `NewRootProfile(name, withOps...)` from `rootProfile.go`. -/
def NewRootProfile (name : String) (withOps : List WithOption)
    (fresh : Nat × Nat) (now : Int) : Except String Profile :=
  NewRootProfileWithTemplate (defaultRootTemplate name now) withOps fresh

/-- `NewIntermediateProfile(name, iss, issPriv, withOps...)` from the
intermediate profile file. -/
def NewIntermediateProfile (name : String) (iss : Certificate)
    (issPriv : Option Nat) (withOps : List WithOption) (fresh : Nat × Nat)
    (now : Int) : Except String Profile :=
  newProfile .intermediate [defaultIntermediateTemplate name now, iss] 0 1
    issPriv withOps fresh

/-- `NewLeafProfileWithTemplate(sub, iss, issPriv, withOps...)` from the
leaf profile file: appends `WithPublicKey(sub.PublicKey)` after the
caller's options. -/
def NewLeafProfileWithTemplate (sub iss : Certificate) (issPriv : Option Nat)
    (withOps : List WithOption) (fresh : Nat × Nat) : Except String Profile :=
  newProfile .leaf [sub, iss] 0 1 issPriv
    (withOps ++ [.withPublicKey sub.publicKey]) fresh

/-- `NewLeafProfile(cn, iss, issPriv, withOps...)` from the leaf profile
file. -/
def NewLeafProfile (cn : String) (iss : Certificate) (issPriv : Option Nat)
    (withOps : List WithOption) (fresh : Nat × Nat) (now : Int) :
    Except String Profile :=
  newProfile .leaf [defaultLeafTemplate { commonName := cn } iss.subject now, iss]
    0 1 issPriv withOps fresh

/-- `NewSelfSignedLeafProfile(cn, withOps...)` from the leaf profile file:
the same template pointer is passed for subject and issuer, and after
construction `p.SetIssuerPrivateKey(p.SubjectPrivateKey())` runs. -/
def NewSelfSignedLeafProfile (cn : String) (withOps : List WithOption)
    (fresh : Nat × Nat) (now : Int) : Except String Profile :=
  match newProfile .leaf
      [defaultLeafTemplate { commonName := cn } { commonName := cn } now] 0 0
      none withOps fresh with
  | .error e => .error e
  | .ok p => .ok (p.SetIssuerPrivateKey p.SubjectPrivateKey)

/-- `NewLeafProfileWithCSR(csr, iss, issPriv, withOps...)` from the leaf
profile file: rejects a request without a public key, copies the request's
subject, extensions and alternative names into the draft, and appends
`WithPublicKey(csr.PublicKey)` after the caller's options. -/
def NewLeafProfileWithCSR (csr : CertificateRequest) (iss : Certificate)
    (issPriv : Option Nat) (withOps : List WithOption) (fresh : Nat × Nat)
    (now : Int) : Except String Profile :=
  if csr.publicKey.isNone then .error "CSR must have PublicKey"
  else
    let sub := defaultLeafTemplate csr.subject iss.subject now
    let sub := { sub with
      extraExtensions := csr.extensions
      dnsNames := csr.dnsNames
      emailAddresses := csr.emailAddresses
      ipAddresses := csr.ipAddresses
      uris := csr.uris }
    newProfile .leaf [sub, iss] 0 1 issPriv
      (withOps ++ [.withPublicKey csr.publicKey]) fresh

/-- Does an option of the modelled vocabulary write the subject name? -/
def writesSubjectName : WithOption → Bool
  | .withSubject _ => true
  | _ => false

/-- Does an option of the modelled vocabulary override the validity
window? -/
def writesValidity : WithOption → Bool
  | .withValidity _ _ => true
  | _ => false

/-! ### Lemmas about the store and the pipeline -/

theorem getD_set_self {α : Type _} : ∀ (l : List α) (i : Nat) (a d : α),
    i < l.length → (l.set i a).getD i d = a
  | [], _, _, _, h => absurd h (by simp)
  | _ :: _, 0, _, _, _ => rfl
  | _ :: xs, i + 1, a, d, h =>
    getD_set_self xs i a d (Nat.lt_of_succ_lt_succ (by simpa using h))

theorem getD_set_ne {α : Type _} : ∀ (l : List α) (i j : Nat) (a d : α),
    i ≠ j → (l.set i a).getD j d = l.getD j d
  | [], _, _, _, _, _ => rfl
  | _ :: _, 0, 0, _, _, h => absurd rfl h
  | _ :: _, 0, _ + 1, _, _, _ => rfl
  | _ :: _, _ + 1, 0, _, _, _ => rfl
  | _ :: xs, i + 1, j + 1, a, d, h =>
    getD_set_ne xs i j a d (fun hij => h (by rw [hij]))

theorem applyOne_role (p : Profile) (op : WithOption) :
    (applyOne p op).role = p.role := by
  cases op <;> rfl

theorem applyOne_subRef (p : Profile) (op : WithOption) :
    (applyOne p op).subRef = p.subRef := by
  cases op <;> rfl

theorem applyOne_issRef (p : Profile) (op : WithOption) :
    (applyOne p op).issRef = p.issRef := by
  cases op <;> rfl

theorem applyOne_issPriv (p : Profile) (op : WithOption) :
    (applyOne p op).issPriv = p.issPriv := by
  cases op <;> rfl

theorem applyOne_storeLen (p : Profile) (op : WithOption) :
    (applyOne p op).store.length = p.store.length := by
  cases op <;> simp [applyOne, Profile.modifySub]

theorem Subject_modifySub (p : Profile) (f : Certificate → Certificate)
    (h : p.subRef < p.store.length) : (p.modifySub f).Subject = f p.Subject := by
  show (p.store.set p.subRef (f p.Subject)).getD p.subRef default = f p.Subject
  exact getD_set_self _ _ _ _ h

theorem Issuer_modifySub (p : Profile) (f : Certificate → Certificate)
    (h : p.subRef ≠ p.issRef) : (p.modifySub f).Issuer = p.Issuer := by
  show (p.store.set p.subRef (f p.Subject)).getD p.issRef default =
    p.store.getD p.issRef default
  exact getD_set_ne _ _ _ _ _ h

theorem applyOne_Issuer (p : Profile) (op : WithOption)
    (h : p.subRef ≠ p.issRef) : (applyOne p op).Issuer = p.Issuer := by
  cases op with
  | withPublicKey pk => rfl
  | withKeyPair a b => rfl
  | withValidity nb na => exact Issuer_modifySub p _ h
  | withSubject n => exact Issuer_modifySub p _ h

/-- A projection of the subject draft is unchanged by every option that a
`writes`-classifier rules out; lifted over the whole pipeline. -/
theorem foldl_Subject_proj {α : Type _} (f : Certificate → α)
    (writes : WithOption → Bool)
    (hf : ∀ (p : Profile) (op : WithOption), p.subRef < p.store.length →
      writes op = false → f (applyOne p op).Subject = f p.Subject) :
    ∀ (ops : List WithOption) (p : Profile), (∀ op ∈ ops, writes op = false) →
      p.subRef < p.store.length → f (ops.foldl applyOne p).Subject = f p.Subject
  | [], _, _, _ => rfl
  | op :: ops, p, hops, hwf => by
    have ih := foldl_Subject_proj f writes hf ops (applyOne p op)
      (fun o ho => hops o (List.mem_cons_of_mem op ho))
      (by rw [applyOne_subRef, applyOne_storeLen]; exact hwf)
    rw [List.foldl_cons, ih, hf p op hwf (hops op (List.mem_cons_self op ops))]

/-- A projection of the subject draft respected by the validity and
subject-name rewrites is unchanged by every option. -/
theorem applyOne_Subject_stable {α : Type _} (f : Certificate → α)
    (hf1 : ∀ (c : Certificate) (nb na : Int),
      f { c with notBefore := nb, notAfter := na } = f c)
    (hf2 : ∀ (c : Certificate) (n : PkixName), f { c with subject := n } = f c)
    (p : Profile) (op : WithOption) (hwf : p.subRef < p.store.length) :
    f (applyOne p op).Subject = f p.Subject := by
  cases op with
  | withPublicKey pk => rfl
  | withKeyPair a b => rfl
  | withValidity nb na =>
    show f (p.modifySub fun c => { c with notBefore := nb, notAfter := na }).Subject
      = f p.Subject
    rw [Subject_modifySub _ _ hwf]; exact hf1 ..
  | withSubject n =>
    show f (p.modifySub fun c => { c with subject := n }).Subject = f p.Subject
    rw [Subject_modifySub _ _ hwf]; exact hf2 ..

theorem foldl_role : ∀ (ops : List WithOption) (p : Profile),
    (ops.foldl applyOne p).role = p.role
  | [], _ => rfl
  | op :: ops, p => (foldl_role ops (applyOne p op)).trans (applyOne_role p op)

theorem foldl_subRef : ∀ (ops : List WithOption) (p : Profile),
    (ops.foldl applyOne p).subRef = p.subRef
  | [], _ => rfl
  | op :: ops, p => (foldl_subRef ops (applyOne p op)).trans (applyOne_subRef p op)

theorem foldl_issRef : ∀ (ops : List WithOption) (p : Profile),
    (ops.foldl applyOne p).issRef = p.issRef
  | [], _ => rfl
  | op :: ops, p => (foldl_issRef ops (applyOne p op)).trans (applyOne_issRef p op)

theorem foldl_issPriv : ∀ (ops : List WithOption) (p : Profile),
    (ops.foldl applyOne p).issPriv = p.issPriv
  | [], _ => rfl
  | op :: ops, p => (foldl_issPriv ops (applyOne p op)).trans (applyOne_issPriv p op)

theorem foldl_storeLen : ∀ (ops : List WithOption) (p : Profile),
    (ops.foldl applyOne p).store.length = p.store.length
  | [], _ => rfl
  | op :: ops, p =>
    (foldl_storeLen ops (applyOne p op)).trans (applyOne_storeLen p op)

theorem foldl_Issuer : ∀ (ops : List WithOption) (p : Profile),
    p.subRef ≠ p.issRef → (ops.foldl applyOne p).Issuer = p.Issuer
  | [], _, _ => rfl
  | op :: ops, p, h =>
    (foldl_Issuer ops (applyOne p op)
      (by rw [applyOne_subRef, applyOne_issRef]; exact h)).trans
      (applyOne_Issuer p op h)

theorem applyOptions_eq_ok : ∀ (ops : List WithOption) (p : Profile),
    applyOptions ops p = .ok (ops.foldl applyOne p)
  | [], _ => rfl
  | op :: ops, p => applyOptions_eq_ok ops (applyOne p op)

theorem newProfile_eq (role : Role) (store : List Certificate)
    (subRef issRef : Nat) (issPriv : Option Nat) (withOps : List WithOption)
    (fresh : Nat × Nat) :
    newProfile role store subRef issRef issPriv withOps fresh =
      .ok (genKeyIfNeeded (withOps.foldl applyOne
        { role := role, store := store, subRef := subRef, issRef := issRef,
          issPriv := issPriv, subPriv := none, subPub := none }) fresh) := by
  unfold newProfile
  rw [applyOptions_eq_ok]

theorem genKey_store (p : Profile) (fresh : Nat × Nat) :
    (genKeyIfNeeded p fresh).store = p.store := by
  unfold genKeyIfNeeded; split <;> rfl

theorem genKey_subRef (p : Profile) (fresh : Nat × Nat) :
    (genKeyIfNeeded p fresh).subRef = p.subRef := by
  unfold genKeyIfNeeded; split <;> rfl

theorem genKey_issRef (p : Profile) (fresh : Nat × Nat) :
    (genKeyIfNeeded p fresh).issRef = p.issRef := by
  unfold genKeyIfNeeded; split <;> rfl

theorem genKey_role (p : Profile) (fresh : Nat × Nat) :
    (genKeyIfNeeded p fresh).role = p.role := by
  unfold genKeyIfNeeded; split <;> rfl

theorem genKey_issPriv (p : Profile) (fresh : Nat × Nat) :
    (genKeyIfNeeded p fresh).issPriv = p.issPriv := by
  unfold genKeyIfNeeded; split <;> rfl

theorem genKey_Subject (p : Profile) (fresh : Nat × Nat) :
    (genKeyIfNeeded p fresh).Subject = p.Subject := by
  unfold genKeyIfNeeded Profile.Subject; split <;> rfl

theorem genKey_Issuer (p : Profile) (fresh : Nat × Nat) :
    (genKeyIfNeeded p fresh).Issuer = p.Issuer := by
  unfold genKeyIfNeeded Profile.Issuer; split <;> rfl

theorem genKey_subPub_of_some (p : Profile) (fresh : Nat × Nat) (pk : Nat)
    (h : p.subPub = some pk) : (genKeyIfNeeded p fresh).subPub = some pk := by
  simp [genKeyIfNeeded, h]

theorem genKey_subPriv_of_some (p : Profile) (fresh : Nat × Nat) (pk : Nat)
    (h : p.subPub = some pk) : (genKeyIfNeeded p fresh).subPriv = p.subPriv := by
  simp [genKeyIfNeeded, h]

theorem genKey_issPriv_eq_subPriv (p : Profile) (fresh : Nat × Nat) :
    ((genKeyIfNeeded p fresh).SetIssuerPrivateKey
        (genKeyIfNeeded p fresh).SubjectPrivateKey).issPriv =
      ((genKeyIfNeeded p fresh).SetIssuerPrivateKey
        (genKeyIfNeeded p fresh).SubjectPrivateKey).subPriv := by
  unfold genKeyIfNeeded Profile.SetIssuerPrivateKey Profile.SubjectPrivateKey
  split <;> rfl

/-- The profile produced by `newProfile` on the success path: defaults,
then the pipeline, then key resolution. -/
def pipelineResult (role : Role) (store : List Certificate) (subRef issRef : Nat)
    (issPriv : Option Nat) (withOps : List WithOption) (fresh : Nat × Nat) :
    Profile :=
  genKeyIfNeeded (withOps.foldl applyOne
    { role := role, store := store, subRef := subRef, issRef := issRef,
      issPriv := issPriv, subPriv := none, subPub := none }) fresh

/-- The self-signing finalization step shared by Root and self-signed Leaf:
`p.SetIssuerPrivateKey(p.SubjectPrivateKey())`. -/
def selfSign (p : Profile) : Profile :=
  p.SetIssuerPrivateKey p.SubjectPrivateKey

theorem newProfile_ok (role : Role) (store : List Certificate)
    (subRef issRef : Nat) (issPriv : Option Nat) (withOps : List WithOption)
    (fresh : Nat × Nat) :
    newProfile role store subRef issRef issPriv withOps fresh =
      .ok (pipelineResult role store subRef issRef issPriv withOps fresh) :=
  newProfile_eq role store subRef issRef issPriv withOps fresh

theorem rootWithTemplate_ok (crt : Certificate) (withOps : List WithOption)
    (fresh : Nat × Nat) :
    NewRootProfileWithTemplate crt withOps fresh =
      .ok (selfSign (pipelineResult .root [crt] 0 0 none withOps fresh)) := by
  unfold NewRootProfileWithTemplate
  rw [newProfile_ok]
  rfl

theorem root_ok (name : String) (withOps : List WithOption) (fresh : Nat × Nat)
    (now : Int) :
    NewRootProfile name withOps fresh now =
      .ok (selfSign (pipelineResult .root [defaultRootTemplate name now] 0 0
        none withOps fresh)) :=
  rootWithTemplate_ok (defaultRootTemplate name now) withOps fresh

theorem intermediate_ok (name : String) (iss : Certificate)
    (issPriv : Option Nat) (withOps : List WithOption) (fresh : Nat × Nat)
    (now : Int) :
    NewIntermediateProfile name iss issPriv withOps fresh now =
      .ok (pipelineResult .intermediate
        [defaultIntermediateTemplate name now, iss] 0 1 issPriv withOps fresh) :=
  newProfile_ok _ _ _ _ _ _ _

theorem leaf_ok (cn : String) (iss : Certificate) (issPriv : Option Nat)
    (withOps : List WithOption) (fresh : Nat × Nat) (now : Int) :
    NewLeafProfile cn iss issPriv withOps fresh now =
      .ok (pipelineResult .leaf
        [defaultLeafTemplate { commonName := cn } iss.subject now, iss] 0 1
        issPriv withOps fresh) :=
  newProfile_ok _ _ _ _ _ _ _

theorem selfSignedLeaf_ok (cn : String) (withOps : List WithOption)
    (fresh : Nat × Nat) (now : Int) :
    NewSelfSignedLeafProfile cn withOps fresh now =
      .ok (selfSign (pipelineResult .leaf
        [defaultLeafTemplate { commonName := cn } { commonName := cn } now] 0 0
        none withOps fresh)) := by
  unfold NewSelfSignedLeafProfile
  rw [newProfile_ok]
  rfl

theorem leafTemplate_ok (sub iss : Certificate) (issPriv : Option Nat)
    (withOps : List WithOption) (fresh : Nat × Nat) :
    NewLeafProfileWithTemplate sub iss issPriv withOps fresh =
      .ok (pipelineResult .leaf [sub, iss] 0 1 issPriv
        (withOps ++ [.withPublicKey sub.publicKey]) fresh) :=
  newProfile_ok _ _ _ _ _ _ _

/-- The subject draft that `NewLeafProfileWithCSR` assembles from the
request before entering the pipeline. -/
def csrLeafCert (csr : CertificateRequest) (iss : Certificate) (now : Int) :
    Certificate :=
  { defaultLeafTemplate csr.subject iss.subject now with
    extraExtensions := csr.extensions
    dnsNames := csr.dnsNames
    emailAddresses := csr.emailAddresses
    ipAddresses := csr.ipAddresses
    uris := csr.uris }

theorem leafCSR_ok (csr : CertificateRequest) (iss : Certificate)
    (issPriv : Option Nat) (withOps : List WithOption) (fresh : Nat × Nat)
    (now : Int) (pk : Nat) (h : csr.publicKey = some pk) :
    NewLeafProfileWithCSR csr iss issPriv withOps fresh now =
      .ok (pipelineResult .leaf [csrLeafCert csr iss now, iss] 0 1 issPriv
        (withOps ++ [.withPublicKey (some pk)]) fresh) := by
  unfold NewLeafProfileWithCSR
  rw [h]
  exact newProfile_ok _ _ _ _ _ _ _

theorem pipelineResult_role (role : Role) (store : List Certificate)
    (subRef issRef : Nat) (issPriv : Option Nat) (withOps : List WithOption)
    (fresh : Nat × Nat) :
    (pipelineResult role store subRef issRef issPriv withOps fresh).role = role := by
  unfold pipelineResult
  rw [genKey_role, foldl_role]

theorem pipelineResult_subRef (role : Role) (store : List Certificate)
    (subRef issRef : Nat) (issPriv : Option Nat) (withOps : List WithOption)
    (fresh : Nat × Nat) :
    (pipelineResult role store subRef issRef issPriv withOps fresh).subRef =
      subRef := by
  unfold pipelineResult
  rw [genKey_subRef, foldl_subRef]

theorem pipelineResult_issRef (role : Role) (store : List Certificate)
    (subRef issRef : Nat) (issPriv : Option Nat) (withOps : List WithOption)
    (fresh : Nat × Nat) :
    (pipelineResult role store subRef issRef issPriv withOps fresh).issRef =
      issRef := by
  unfold pipelineResult
  rw [genKey_issRef, foldl_issRef]

/-- Any projection of the subject draft that every option outside the
`writes` classifier leaves alone survives the whole construction. -/
theorem pipelineResult_Subject_cond {α : Type _} (f : Certificate → α)
    (writes : WithOption → Bool)
    (hf : ∀ (p : Profile) (op : WithOption), p.subRef < p.store.length →
      writes op = false → f (applyOne p op).Subject = f p.Subject)
    (role : Role) (store : List Certificate) (subRef issRef : Nat)
    (issPriv : Option Nat) (withOps : List WithOption) (fresh : Nat × Nat)
    (hops : ∀ op ∈ withOps, writes op = false) (hwf : subRef < store.length) :
    f (pipelineResult role store subRef issRef issPriv withOps fresh).Subject =
      f (store.getD subRef default) := by
  unfold pipelineResult
  rw [genKey_Subject]
  exact foldl_Subject_proj f writes hf withOps _ hops hwf

theorem pipelineResult_Issuer (role : Role) (store : List Certificate)
    (subRef issRef : Nat) (issPriv : Option Nat) (withOps : List WithOption)
    (fresh : Nat × Nat) (h : subRef ≠ issRef) :
    (pipelineResult role store subRef issRef issPriv withOps fresh).Issuer =
      store.getD issRef default := by
  unfold pipelineResult
  rw [genKey_Issuer]
  exact foldl_Issuer withOps _ h

theorem selfSign_role (p : Profile) : (selfSign p).role = p.role := rfl

theorem selfSign_subRef (p : Profile) : (selfSign p).subRef = p.subRef := rfl

theorem selfSign_issRef (p : Profile) : (selfSign p).issRef = p.issRef := rfl

theorem selfSign_Subject (p : Profile) : (selfSign p).Subject = p.Subject := rfl

theorem selfSign_Issuer (p : Profile) : (selfSign p).Issuer = p.Issuer := rfl

theorem selfSign_subPriv (p : Profile) : (selfSign p).subPriv = p.subPriv := rfl

theorem selfSign_issPriv (p : Profile) : (selfSign p).issPriv = p.subPriv := rfl

theorem Issuer_eq_Subject_of_refs (p : Profile) (h : p.issRef = p.subRef) :
    p.Issuer = p.Subject := by
  unfold Profile.Issuer Profile.Subject
  rw [h]

theorem applyOne_subjectName_pres (p : Profile) (op : WithOption)
    (hwf : p.subRef < p.store.length) (hop : writesSubjectName op = false) :
    (applyOne p op).Subject.subject = p.Subject.subject := by
  cases op with
  | withPublicKey pk => rfl
  | withKeyPair a b => rfl
  | withValidity nb na =>
    show (p.modifySub fun c =>
      { c with notBefore := nb, notAfter := na }).Subject.subject = _
    rw [Subject_modifySub _ _ hwf]
  | withSubject n => exact absurd hop (by simp [writesSubjectName])

theorem applyOne_validity_pres (p : Profile) (op : WithOption)
    (hwf : p.subRef < p.store.length) (hop : writesValidity op = false) :
    (applyOne p op).Subject.notAfter - (applyOne p op).Subject.notBefore =
      p.Subject.notAfter - p.Subject.notBefore := by
  cases op with
  | withPublicKey pk => rfl
  | withKeyPair a b => rfl
  | withValidity nb na => exact absurd hop (by simp [writesValidity])
  | withSubject n =>
    show (p.modifySub fun c => { c with subject := n }).Subject.notAfter -
      (p.modifySub fun c => { c with subject := n }).Subject.notBefore = _
    rw [Subject_modifySub _ _ hwf]

/-- Last-writer-wins for the subject name: a `withSubject` option followed
only by options that do not write the subject name determines the
constructed subject name, whatever ran before it. -/
theorem pipeline_lastWriter (role : Role) (store : List Certificate)
    (subRef issRef : Nat) (issPriv : Option Nat) (pre suf : List WithOption)
    (n : PkixName) (fresh : Nat × Nat)
    (hsuf : ∀ op ∈ suf, writesSubjectName op = false)
    (hwf : subRef < store.length) :
    (pipelineResult role store subRef issRef issPriv
      (pre ++ .withSubject n :: suf) fresh).Subject.subject = n := by
  unfold pipelineResult
  rw [genKey_Subject, List.foldl_append, List.foldl_cons]
  have hwf1 : (applyOne (pre.foldl applyOne
      { role := role, store := store, subRef := subRef, issRef := issRef,
        issPriv := issPriv, subPriv := none, subPub := none })
      (.withSubject n)).subRef <
      (applyOne (pre.foldl applyOne
      { role := role, store := store, subRef := subRef, issRef := issRef,
        issPriv := issPriv, subPriv := none, subPub := none })
      (.withSubject n)).store.length := by
    rw [applyOne_subRef, applyOne_storeLen, foldl_subRef, foldl_storeLen]
    exact hwf
  rw [foldl_Subject_proj (fun c => c.subject) writesSubjectName
    (fun p op h hw => applyOne_subjectName_pres p op h hw) suf _ hsuf hwf1]
  have hwf0 : (pre.foldl applyOne
      { role := role, store := store, subRef := subRef, issRef := issRef,
        issPriv := issPriv, subPriv := none, subPub := none }).subRef <
      (pre.foldl applyOne
      { role := role, store := store, subRef := subRef, issRef := issRef,
        issPriv := issPriv, subPriv := none, subPub := none }).store.length := by
    rw [foldl_subRef, foldl_storeLen]
    exact hwf
  show ((pre.foldl applyOne _).modifySub fun c =>
    { c with subject := n }).Subject.subject = n
  rw [Subject_modifySub _ _ hwf0]

/-! ### Sample inputs used by the witnesses -/

/-- A concrete issuer certificate for witnesses. -/
def caCert : Certificate := defaultRootTemplate "ca" 0

/-- A concrete certificate request with a declared public key. -/
def sampleCSR : CertificateRequest :=
  { subject := { commonName := "leaf" }
    publicKey := some 7
    extensions := [{ id := [1, 2, 3], critical := false, value := [9] }]
    dnsNames := ["a.example", "b.example"]
    emailAddresses := ["ops@example"]
    ipAddresses := ["10.0.0.1"]
    uris := ["spiffe://cluster/leaf"] }

/-- A concrete certificate request whose declared public key is absent. -/
def csrNoKey : CertificateRequest := { subject := { commonName := "leaf" } }

/-! ### The claims -/

/-- Claim C3: `NewLeafProfileWithCSR` applied to a request whose declared
public key is absent fails with the missing-public-key construction error
(`"CSR must have PublicKey"`), and no profile — not even a partial one —
is returned to the caller. -/
theorem c3_csr_requires_public_key (csr : CertificateRequest)
    (iss : Certificate) (issPriv : Option Nat) (withOps : List WithOption)
    (fresh : Nat × Nat) (now : Int) (h : csr.publicKey = none) :
    NewLeafProfileWithCSR csr iss issPriv withOps fresh now =
        .error "CSR must have PublicKey" ∧
      ∀ p : Profile,
        NewLeafProfileWithCSR csr iss issPriv withOps fresh now ≠ .ok p := by
  have he : NewLeafProfileWithCSR csr iss issPriv withOps fresh now =
      .error "CSR must have PublicKey" := by
    unfold NewLeafProfileWithCSR
    rw [h]
    rfl
  exact ⟨he, fun p hp => by rw [he] at hp; exact Except.noConfusion hp⟩

/-- Witness for C3 at a concrete key-less request. -/
theorem c3_csr_requires_public_key_witness :
    NewLeafProfileWithCSR csrNoKey caCert none [] (1, 2) 0 =
      .error "CSR must have PublicKey" :=
  (c3_csr_requires_public_key csrNoKey caCert none [] (1, 2) 0 rfl).1

/-- Claim C4: the Root default template has a ten-year validity window, is
a CA, carries exactly the documented key-usage bits, extended key usages
and vendor OIDs, a present path-length constraint equal to 1, and
subject = issuer = the given common name; and the profile built by
`NewRootProfile` reads back the Root role, the ten-year default duration
and `isCA = true`. -/
theorem c4_root_default_template :
    (∀ (n : String) (now : Int),
      (defaultRootTemplate n now).notAfter =
          (defaultRootTemplate n now).notBefore + DefaultRootCertValidity ∧
        DefaultRootCertValidity = Hour * 24 * 365 * 10 ∧
        (defaultRootTemplate n now).isCA = true ∧
        (defaultRootTemplate n now).keyUsage =
          (KeyUsageDigitalSignature ||| KeyUsageKeyEncipherment |||
            KeyUsageCertSign ||| KeyUsageCRLSign) ∧
        (defaultRootTemplate n now).extKeyUsage =
          [ExtKeyUsageAny, ExtKeyUsageServerAuth, ExtKeyUsageClientAuth,
            ExtKeyUsageCodeSigning, ExtKeyUsageEmailProtection,
            ExtKeyUsageTimeStamping] ∧
        (defaultRootTemplate n now).unknownExtKeyUsage =
          [[1, 3, 6, 1, 4, 1, 311, 20, 2, 2],
            [1, 3, 6, 1, 4, 1, 311, 10, 3, 12],
            [1, 3, 6, 1, 4, 1, 311, 80, 1]] ∧
        (defaultRootTemplate n now).basicConstraintsValid = true ∧
        (defaultRootTemplate n now).maxPathLen = 1 ∧
        (defaultRootTemplate n now).maxPathLenZero = false ∧
        (defaultRootTemplate n now).subject = { commonName := n } ∧
        (defaultRootTemplate n now).issuer = { commonName := n }) ∧
      ∀ (n : String) (fresh : Nat × Nat) (now : Int) (p : Profile),
        NewRootProfile n [] fresh now = .ok p →
          p.role = .root ∧ p.role.DefaultDuration = DefaultRootCertValidity ∧
            p.Subject.isCA = true := by
  constructor
  · intro n now
    exact ⟨rfl, rfl, rfl, rfl, rfl, rfl, rfl, rfl, rfl, rfl, rfl⟩
  · intro n fresh now p hp
    rw [root_ok] at hp
    injection hp with hq
    subst hq
    have hrole : (selfSign (pipelineResult .root [defaultRootTemplate n now]
        0 0 none [] fresh)).role = .root := by
      rw [selfSign_role, pipelineResult_role]
    refine ⟨hrole, by rw [hrole]; rfl, ?_⟩
    rw [selfSign_Subject]
    have hca : (pipelineResult .root [defaultRootTemplate n now] 0 0 none []
        fresh).Subject.isCA = (defaultRootTemplate n now).isCA :=
      pipelineResult_Subject_cond (fun c => c.isCA) (fun _ => false)
        (fun p op h _ => applyOne_Subject_stable (fun c => c.isCA)
          (fun _ _ _ => rfl) (fun _ _ => rfl) p op h)
        .root [defaultRootTemplate n now] 0 0 none [] fresh
        (fun _ _ => rfl) (by simp)
    rw [hca]
    rfl

/-- Witness for C4's round-trip conjunct at `NewRootProfile "root-ca"`. -/
theorem c4_root_default_template_witness :
    ((NewRootProfile "root-ca" [] (1, 2) 0).toOption.getD default).role =
        .root ∧
      ((NewRootProfile "root-ca" [] (1, 2) 0).toOption.getD
          default).role.DefaultDuration = DefaultRootCertValidity ∧
      ((NewRootProfile "root-ca" [] (1, 2) 0).toOption.getD
          default).Subject.isCA = true :=
  c4_root_default_template.2 "root-ca" (1, 2) 0
    ((NewRootProfile "root-ca" [] (1, 2) 0).toOption.getD default) rfl

/-- Claim C5 counterexample: the claim asserts the Intermediate default
template's extended-key-usage set equals the Root's including the 'any'
extended key usage, but `ExtKeyUsageAny` appears only in the Root default
template's list. -/
theorem c5_counterexample :
    ExtKeyUsageAny ∈ (defaultRootTemplate "x" 0).extKeyUsage ∧
      ExtKeyUsageAny ∉ (defaultIntermediateTemplate "x" 0).extKeyUsage := by
  decide

/-- Claim C5 (amended): the Intermediate default template has the same
validity, key-usage set, vendor OIDs, CA flag and name shape as the Root
default template, and its extended-key-usage set is the Root's with the
'any' extended key usage removed; beyond that the two templates differ
only in the path-length fields and the policy OIDs. -/
theorem c5_intermediate_vs_root (n : String) (now : Int) :
    (defaultIntermediateTemplate n now).notAfter -
        (defaultIntermediateTemplate n now).notBefore =
      (defaultRootTemplate n now).notAfter -
        (defaultRootTemplate n now).notBefore ∧
    DefaultIntermediateCertValidity = DefaultRootCertValidity ∧
    (defaultIntermediateTemplate n now).keyUsage =
      (defaultRootTemplate n now).keyUsage ∧
    (defaultRootTemplate n now).extKeyUsage =
      ExtKeyUsageAny :: (defaultIntermediateTemplate n now).extKeyUsage ∧
    (defaultIntermediateTemplate n now).unknownExtKeyUsage =
      (defaultRootTemplate n now).unknownExtKeyUsage ∧
    (defaultIntermediateTemplate n now).isCA =
      (defaultRootTemplate n now).isCA ∧
    (defaultIntermediateTemplate n now).subject =
      (defaultRootTemplate n now).subject ∧
    (defaultIntermediateTemplate n now).issuer =
      (defaultRootTemplate n now).issuer ∧
    (defaultIntermediateTemplate n now).basicConstraintsValid =
      (defaultRootTemplate n now).basicConstraintsValid ∧
    (defaultIntermediateTemplate n now).maxPathLen = 0 ∧
    (defaultIntermediateTemplate n now).maxPathLenZero = true ∧
    (defaultRootTemplate n now).maxPathLen = 1 ∧
    (defaultRootTemplate n now).maxPathLenZero = false ∧
    (defaultIntermediateTemplate n now).policyIdentifiers =
      [[2, 5, 29, 32, 0], [2, 23, 140, 1, 1], [2, 23, 140, 1, 3]] ∧
    (defaultRootTemplate n now).policyIdentifiers = [] :=
  ⟨rfl, rfl, rfl, rfl, rfl, rfl, rfl, rfl, rfl, rfl, rfl, rfl, rfl, rfl, rfl⟩

/-- Claim C7: every Leaf default template has `isCA = false`, no
path-length constraint (basic-constraints-valid and the path-length-zero
flag both false), and key usage exactly
{digitalSignature, keyEncipherment}, which excludes the
certificate-signing and CRL-signing bits. -/
theorem c7_leaf_template_is_end_entity (sub iss : PkixName) (now : Int) :
    (defaultLeafTemplate sub iss now).isCA = false ∧
      (defaultLeafTemplate sub iss now).basicConstraintsValid = false ∧
      (defaultLeafTemplate sub iss now).maxPathLen = 0 ∧
      (defaultLeafTemplate sub iss now).maxPathLenZero = false ∧
      (defaultLeafTemplate sub iss now).keyUsage =
        (KeyUsageDigitalSignature ||| KeyUsageKeyEncipherment) ∧
      (defaultLeafTemplate sub iss now).keyUsage &&&
        (KeyUsageCertSign ||| KeyUsageCRLSign) = 0 :=
  ⟨rfl, rfl, rfl, rfl, rfl,
    (by decide : (KeyUsageDigitalSignature ||| KeyUsageKeyEncipherment) &&&
      (KeyUsageCertSign ||| KeyUsageCRLSign) = 0)⟩

/-- Any projection respected by the validity and subject-name rewrites of
the option vocabulary survives the whole construction unconditionally. -/
theorem pipelineResult_Subject_stable {α : Type _} (f : Certificate → α)
    (hf1 : ∀ (c : Certificate) (nb na : Int),
      f { c with notBefore := nb, notAfter := na } = f c)
    (hf2 : ∀ (c : Certificate) (n : PkixName), f { c with subject := n } = f c)
    (role : Role) (store : List Certificate) (subRef issRef : Nat)
    (issPriv : Option Nat) (withOps : List WithOption) (fresh : Nat × Nat)
    (hwf : subRef < store.length) :
    f (pipelineResult role store subRef issRef issPriv withOps fresh).Subject =
      f (store.getD subRef default) :=
  pipelineResult_Subject_cond f (fun _ => false)
    (fun p op h _ => applyOne_Subject_stable f hf1 hf2 p op h)
    role store subRef issRef issPriv withOps fresh (fun _ _ => rfl) hwf

/-- The validity window of the subject draft survives a pipeline free of
validity-overriding options. -/
theorem pipelineResult_validity (role : Role) (store : List Certificate)
    (subRef issRef : Nat) (issPriv : Option Nat) (withOps : List WithOption)
    (fresh : Nat × Nat) (hops : ∀ op ∈ withOps, writesValidity op = false)
    (hwf : subRef < store.length) :
    (pipelineResult role store subRef issRef issPriv withOps
        fresh).Subject.notAfter -
      (pipelineResult role store subRef issRef issPriv withOps
        fresh).Subject.notBefore =
      (store.getD subRef default).notAfter -
        (store.getD subRef default).notBefore :=
  pipelineResult_Subject_cond (fun c => c.notAfter - c.notBefore)
    writesValidity (fun p op h hw => applyOne_validity_pres p op h hw)
    role store subRef issRef issPriv withOps fresh hops hwf

/-- Self-signing preserves the draft identity facts established before. -/
theorem selfSign_identity (p : Profile) (h : p.issRef = p.subRef) :
    (selfSign p).issRef = (selfSign p).subRef ∧
      (selfSign p).Issuer = (selfSign p).Subject ∧
      (selfSign p).IssuerPrivateKey = (selfSign p).SubjectPrivateKey :=
  ⟨h, Issuer_eq_Subject_of_refs (selfSign p) h, rfl⟩

/-- A trailing `withKeyPair` option fixes the subject private key of the
constructed pipeline result: key generation does not overwrite it. -/
theorem pipeline_keyPair_last (role : Role) (store : List Certificate)
    (subRef issRef : Nat) (issPriv : Option Nat) (withOps : List WithOption)
    (k kp : Nat) (fresh : Nat × Nat) :
    (pipelineResult role store subRef issRef issPriv
      (withOps ++ [.withKeyPair k kp]) fresh).subPriv = some k := by
  unfold pipelineResult
  rw [List.foldl_append]
  rw [genKey_subPriv_of_some _ fresh kp rfl]
  rfl

/-- Appending the forced `WithPublicKey` keeps an option list free of
validity-overriding options. -/
theorem writesValidity_append_pk (withOps : List WithOption) (pk : Option Nat)
    (hops : ∀ op ∈ withOps, writesValidity op = false) :
    ∀ op ∈ withOps ++ [.withPublicKey pk], writesValidity op = false := by
  intro op hop
  rcases List.mem_append.mp hop with hl | hr
  · exact hops op hl
  · rw [List.mem_singleton] at hr
    subst hr
    rfl

/-- Appending the forced `WithPublicKey` keeps an option list free of
subject-name-writing options. -/
theorem writesSubjectName_append_pk (withOps : List WithOption)
    (pk : Option Nat)
    (hops : ∀ op ∈ withOps, writesSubjectName op = false) :
    ∀ op ∈ withOps ++ [.withPublicKey pk], writesSubjectName op = false := by
  intro op hop
  rcases List.mem_append.mp hop with hl | hr
  · exact hops op hl
  · rw [List.mem_singleton] at hr
    subst hr
    rfl

/-- Claim C1: for Root profiles (from a name or a template) and self-signed
Leaf profiles, the issuer draft is the very object the subject draft is
(pointer identity, stated as reference equality in the heap model), and
after construction the issuer private key equals the subject private key.
The self-signing assignment runs strictly after all options: even when the
caller's last option overrides the subject key material, the issuer key
ends up equal to it (last two conjuncts). -/
theorem c1_self_signed_identity :
    (∀ (crt : Certificate) (withOps : List WithOption) (fresh : Nat × Nat)
      (p : Profile), NewRootProfileWithTemplate crt withOps fresh = .ok p →
        p.issRef = p.subRef ∧ p.Issuer = p.Subject ∧
          p.IssuerPrivateKey = p.SubjectPrivateKey) ∧
    (∀ (name : String) (withOps : List WithOption) (fresh : Nat × Nat)
      (now : Int) (p : Profile), NewRootProfile name withOps fresh now = .ok p →
        p.issRef = p.subRef ∧ p.Issuer = p.Subject ∧
          p.IssuerPrivateKey = p.SubjectPrivateKey) ∧
    (∀ (cn : String) (withOps : List WithOption) (fresh : Nat × Nat)
      (now : Int) (p : Profile),
      NewSelfSignedLeafProfile cn withOps fresh now = .ok p →
        p.issRef = p.subRef ∧ p.Issuer = p.Subject ∧
          p.IssuerPrivateKey = p.SubjectPrivateKey) ∧
    (∀ (name : String) (withOps : List WithOption) (fresh : Nat × Nat)
      (now : Int) (k kp : Nat) (p : Profile),
      NewRootProfile name (withOps ++ [.withKeyPair k kp]) fresh now = .ok p →
        p.IssuerPrivateKey = some k) ∧
    (∀ (cn : String) (withOps : List WithOption) (fresh : Nat × Nat)
      (now : Int) (k kp : Nat) (p : Profile),
      NewSelfSignedLeafProfile cn (withOps ++ [.withKeyPair k kp]) fresh now =
        .ok p → p.IssuerPrivateKey = some k) := by
  refine ⟨?_, ?_, ?_, ?_, ?_⟩
  · intro crt withOps fresh p hp
    rw [rootWithTemplate_ok] at hp
    injection hp with hq
    subst hq
    exact selfSign_identity _
      ((pipelineResult_issRef _ _ _ _ _ _ _).trans
        (pipelineResult_subRef _ _ _ _ _ _ _).symm)
  · intro name withOps fresh now p hp
    rw [root_ok] at hp
    injection hp with hq
    subst hq
    exact selfSign_identity _
      ((pipelineResult_issRef _ _ _ _ _ _ _).trans
        (pipelineResult_subRef _ _ _ _ _ _ _).symm)
  · intro cn withOps fresh now p hp
    rw [selfSignedLeaf_ok] at hp
    injection hp with hq
    subst hq
    exact selfSign_identity _
      ((pipelineResult_issRef _ _ _ _ _ _ _).trans
        (pipelineResult_subRef _ _ _ _ _ _ _).symm)
  · intro name withOps fresh now k kp p hp
    rw [root_ok] at hp
    injection hp with hq
    subst hq
    show (pipelineResult .root [defaultRootTemplate name now] 0 0 none
      (withOps ++ [.withKeyPair k kp]) fresh).subPriv = some k
    exact pipeline_keyPair_last _ _ _ _ _ _ _ _ _
  · intro cn withOps fresh now k kp p hp
    rw [selfSignedLeaf_ok] at hp
    injection hp with hq
    subst hq
    show (pipelineResult .leaf
      [defaultLeafTemplate { commonName := cn } { commonName := cn } now] 0 0
      none (withOps ++ [.withKeyPair k kp]) fresh).subPriv = some k
    exact pipeline_keyPair_last _ _ _ _ _ _ _ _ _

/-- Witness for C1 at `NewRootProfile "root-ca"` with no options. -/
theorem c1_self_signed_identity_witness :
    ((NewRootProfile "root-ca" [] (1, 2) 0).toOption.getD default).issRef =
        ((NewRootProfile "root-ca" [] (1, 2) 0).toOption.getD
          default).subRef ∧
      ((NewRootProfile "root-ca" [] (1, 2) 0).toOption.getD default).Issuer =
        ((NewRootProfile "root-ca" [] (1, 2) 0).toOption.getD
          default).Subject ∧
      ((NewRootProfile "root-ca" [] (1, 2) 0).toOption.getD
          default).IssuerPrivateKey =
        ((NewRootProfile "root-ca" [] (1, 2) 0).toOption.getD
          default).SubjectPrivateKey :=
  c1_self_signed_identity.2.1 "root-ca" [] (1, 2) 0
    ((NewRootProfile "root-ca" [] (1, 2) 0).toOption.getD default) rfl

/-- Claim C6: every profile built by `NewIntermediateProfile` has a CA
subject draft with a present path-length constraint equal to 0 (MaxPathLen
0 with the path-length-zero flag asserted), and its issuer draft is the
externally supplied issuer certificate itself. -/
theorem c6_intermediate_invariants (name : String) (iss : Certificate)
    (issPriv : Option Nat) (withOps : List WithOption) (fresh : Nat × Nat)
    (now : Int) (p : Profile)
    (hp : NewIntermediateProfile name iss issPriv withOps fresh now = .ok p) :
    p.Subject.isCA = true ∧ p.Subject.basicConstraintsValid = true ∧
      p.Subject.maxPathLen = 0 ∧ p.Subject.maxPathLenZero = true ∧
      p.Issuer = iss := by
  rw [intermediate_ok] at hp
  injection hp with hq
  subst hq
  have h1 : (pipelineResult .intermediate
      [defaultIntermediateTemplate name now, iss] 0 1 issPriv withOps
      fresh).Subject.isCA = (defaultIntermediateTemplate name now).isCA :=
    pipelineResult_Subject_stable (fun c => c.isCA) (fun _ _ _ => rfl)
      (fun _ _ => rfl) _ _ _ _ _ _ _ (by simp)
  have h2 : (pipelineResult .intermediate
      [defaultIntermediateTemplate name now, iss] 0 1 issPriv withOps
      fresh).Subject.basicConstraintsValid =
      (defaultIntermediateTemplate name now).basicConstraintsValid :=
    pipelineResult_Subject_stable (fun c => c.basicConstraintsValid)
      (fun _ _ _ => rfl) (fun _ _ => rfl) _ _ _ _ _ _ _ (by simp)
  have h3 : (pipelineResult .intermediate
      [defaultIntermediateTemplate name now, iss] 0 1 issPriv withOps
      fresh).Subject.maxPathLen =
      (defaultIntermediateTemplate name now).maxPathLen :=
    pipelineResult_Subject_stable (fun c => c.maxPathLen) (fun _ _ _ => rfl)
      (fun _ _ => rfl) _ _ _ _ _ _ _ (by simp)
  have h4 : (pipelineResult .intermediate
      [defaultIntermediateTemplate name now, iss] 0 1 issPriv withOps
      fresh).Subject.maxPathLenZero =
      (defaultIntermediateTemplate name now).maxPathLenZero :=
    pipelineResult_Subject_stable (fun c => c.maxPathLenZero)
      (fun _ _ _ => rfl) (fun _ _ => rfl) _ _ _ _ _ _ _ (by simp)
  have h5 : (pipelineResult .intermediate
      [defaultIntermediateTemplate name now, iss] 0 1 issPriv withOps
      fresh).Issuer = iss :=
    pipelineResult_Issuer _ _ _ _ _ _ _ (by decide)
  exact ⟨h1.trans rfl, h2.trans rfl, h3.trans rfl, h4.trans rfl, h5⟩

/-- Witness for C6 at a concrete intermediate construction. -/
theorem c6_intermediate_invariants_witness :
    ((NewIntermediateProfile "int-ca" caCert (some 9) [] (1, 2) 0).toOption.getD
        default).Subject.isCA = true ∧
      ((NewIntermediateProfile "int-ca" caCert (some 9) [] (1, 2) 0).toOption.getD
        default).Subject.basicConstraintsValid = true ∧
      ((NewIntermediateProfile "int-ca" caCert (some 9) [] (1, 2) 0).toOption.getD
        default).Subject.maxPathLen = 0 ∧
      ((NewIntermediateProfile "int-ca" caCert (some 9) [] (1, 2) 0).toOption.getD
        default).Subject.maxPathLenZero = true ∧
      ((NewIntermediateProfile "int-ca" caCert (some 9) [] (1, 2) 0).toOption.getD
        default).Issuer = caCert :=
  c6_intermediate_invariants "int-ca" caCert (some 9) [] (1, 2) 0
    ((NewIntermediateProfile "int-ca" caCert (some 9) [] (1, 2) 0).toOption.getD
      default) rfl

/-- Claim C9: with no validity-overriding option, every constructed
profile's subject validity window spans exactly its role's default
duration: `DefaultRootCertValidity` for Root,
`DefaultIntermediateCertValidity` for Intermediate and
`DefaultCertValidity` for Leaf (from a name, self-signed, or from a
request). -/
theorem c9_default_durations :
    (∀ (name : String) (withOps : List WithOption) (fresh : Nat × Nat)
      (now : Int) (p : Profile),
      (∀ op ∈ withOps, writesValidity op = false) →
      NewRootProfile name withOps fresh now = .ok p →
        p.Subject.notAfter - p.Subject.notBefore = DefaultRootCertValidity ∧
          p.role.DefaultDuration = DefaultRootCertValidity) ∧
    (∀ (name : String) (iss : Certificate) (issPriv : Option Nat)
      (withOps : List WithOption) (fresh : Nat × Nat) (now : Int)
      (p : Profile), (∀ op ∈ withOps, writesValidity op = false) →
      NewIntermediateProfile name iss issPriv withOps fresh now = .ok p →
        p.Subject.notAfter - p.Subject.notBefore =
            DefaultIntermediateCertValidity ∧
          p.role.DefaultDuration = DefaultIntermediateCertValidity) ∧
    (∀ (cn : String) (iss : Certificate) (issPriv : Option Nat)
      (withOps : List WithOption) (fresh : Nat × Nat) (now : Int)
      (p : Profile), (∀ op ∈ withOps, writesValidity op = false) →
      NewLeafProfile cn iss issPriv withOps fresh now = .ok p →
        p.Subject.notAfter - p.Subject.notBefore = DefaultCertValidity ∧
          p.role.DefaultDuration = DefaultCertValidity) ∧
    (∀ (cn : String) (withOps : List WithOption) (fresh : Nat × Nat)
      (now : Int) (p : Profile),
      (∀ op ∈ withOps, writesValidity op = false) →
      NewSelfSignedLeafProfile cn withOps fresh now = .ok p →
        p.Subject.notAfter - p.Subject.notBefore = DefaultCertValidity ∧
          p.role.DefaultDuration = DefaultCertValidity) ∧
    (∀ (csr : CertificateRequest) (iss : Certificate) (issPriv : Option Nat)
      (withOps : List WithOption) (fresh : Nat × Nat) (now : Int) (pk : Nat)
      (p : Profile), csr.publicKey = some pk →
      (∀ op ∈ withOps, writesValidity op = false) →
      NewLeafProfileWithCSR csr iss issPriv withOps fresh now = .ok p →
        p.Subject.notAfter - p.Subject.notBefore = DefaultCertValidity ∧
          p.role.DefaultDuration = DefaultCertValidity) := by
  refine ⟨?_, ?_, ?_, ?_, ?_⟩
  · intro name withOps fresh now p hops hp
    rw [root_ok] at hp
    injection hp with hq
    subst hq
    constructor
    · rw [selfSign_Subject]
      have hv : (pipelineResult .root [defaultRootTemplate name now] 0 0 none
          withOps fresh).Subject.notAfter -
          (pipelineResult .root [defaultRootTemplate name now] 0 0 none
          withOps fresh).Subject.notBefore =
          (now + DefaultRootCertValidity) - now :=
        pipelineResult_validity _ _ _ _ _ _ _ hops (by simp)
      rw [hv]
      exact add_sub_cancel_left now DefaultRootCertValidity
    · rw [selfSign_role, pipelineResult_role]
      rfl
  · intro name iss issPriv withOps fresh now p hops hp
    rw [intermediate_ok] at hp
    injection hp with hq
    subst hq
    constructor
    · have hv : (pipelineResult .intermediate
          [defaultIntermediateTemplate name now, iss] 0 1 issPriv withOps
          fresh).Subject.notAfter -
          (pipelineResult .intermediate
          [defaultIntermediateTemplate name now, iss] 0 1 issPriv withOps
          fresh).Subject.notBefore =
          (now + DefaultIntermediateCertValidity) - now :=
        pipelineResult_validity _ _ _ _ _ _ _ hops (by simp)
      rw [hv]
      exact add_sub_cancel_left now DefaultIntermediateCertValidity
    · rw [pipelineResult_role]
      rfl
  · intro cn iss issPriv withOps fresh now p hops hp
    rw [leaf_ok] at hp
    injection hp with hq
    subst hq
    constructor
    · have hv : (pipelineResult .leaf
          [defaultLeafTemplate { commonName := cn } iss.subject now, iss] 0 1
          issPriv withOps fresh).Subject.notAfter -
          (pipelineResult .leaf
          [defaultLeafTemplate { commonName := cn } iss.subject now, iss] 0 1
          issPriv withOps fresh).Subject.notBefore =
          (now + DefaultCertValidity) - now :=
        pipelineResult_validity _ _ _ _ _ _ _ hops (by simp)
      rw [hv]
      exact add_sub_cancel_left now DefaultCertValidity
    · rw [pipelineResult_role]
      rfl
  · intro cn withOps fresh now p hops hp
    rw [selfSignedLeaf_ok] at hp
    injection hp with hq
    subst hq
    constructor
    · rw [selfSign_Subject]
      have hv : (pipelineResult .leaf
          [defaultLeafTemplate { commonName := cn } { commonName := cn } now]
          0 0 none withOps fresh).Subject.notAfter -
          (pipelineResult .leaf
          [defaultLeafTemplate { commonName := cn } { commonName := cn } now]
          0 0 none withOps fresh).Subject.notBefore =
          (now + DefaultCertValidity) - now :=
        pipelineResult_validity _ _ _ _ _ _ _ hops (by simp)
      rw [hv]
      exact add_sub_cancel_left now DefaultCertValidity
    · rw [selfSign_role, pipelineResult_role]
      rfl
  · intro csr iss issPriv withOps fresh now pk p hpk hops hp
    rw [leafCSR_ok csr iss issPriv withOps fresh now pk hpk] at hp
    injection hp with hq
    subst hq
    constructor
    · have hv : (pipelineResult .leaf [csrLeafCert csr iss now, iss] 0 1
          issPriv (withOps ++ [.withPublicKey (some pk)])
          fresh).Subject.notAfter -
          (pipelineResult .leaf [csrLeafCert csr iss now, iss] 0 1
          issPriv (withOps ++ [.withPublicKey (some pk)])
          fresh).Subject.notBefore =
          (now + DefaultCertValidity) - now :=
        pipelineResult_validity _ _ _ _ _ _ _
          (writesValidity_append_pk withOps (some pk) hops) (by simp)
      rw [hv]
      exact add_sub_cancel_left now DefaultCertValidity
    · rw [pipelineResult_role]
      rfl

/-- Witness for C9 at a concrete root construction with no options. -/
theorem c9_default_durations_witness :
    ((NewRootProfile "root-ca" [] (1, 2) 0).toOption.getD
        default).Subject.notAfter -
      ((NewRootProfile "root-ca" [] (1, 2) 0).toOption.getD
        default).Subject.notBefore = DefaultRootCertValidity ∧
      ((NewRootProfile "root-ca" [] (1, 2) 0).toOption.getD
        default).role.DefaultDuration = DefaultRootCertValidity :=
  c9_default_durations.1 "root-ca" [] (1, 2) 0
    ((NewRootProfile "root-ca" [] (1, 2) 0).toOption.getD default)
    (fun _ h => absurd h (List.not_mem_nil _)) rfl

set_option maxHeartbeats 1600000 in
/-- Claim C2: at every entry point, options run in the caller's order after
role defaults, so among options writing the same field (here the subject
name, the spec's example) the last writer in the sequence determines the
constructed profile's value, whatever precedes it and whatever follows that
does not write the field. -/
theorem c2_last_writer_wins :
    (∀ (name : String) (pre suf : List WithOption) (n : PkixName)
      (fresh : Nat × Nat) (now : Int) (p : Profile),
      (∀ op ∈ suf, writesSubjectName op = false) →
      NewRootProfile name (pre ++ .withSubject n :: suf) fresh now = .ok p →
        p.Subject.subject = n) ∧
    (∀ (crt : Certificate) (pre suf : List WithOption) (n : PkixName)
      (fresh : Nat × Nat) (p : Profile),
      (∀ op ∈ suf, writesSubjectName op = false) →
      NewRootProfileWithTemplate crt (pre ++ .withSubject n :: suf) fresh =
        .ok p → p.Subject.subject = n) ∧
    (∀ (name : String) (iss : Certificate) (issPriv : Option Nat)
      (pre suf : List WithOption) (n : PkixName) (fresh : Nat × Nat)
      (now : Int) (p : Profile),
      (∀ op ∈ suf, writesSubjectName op = false) →
      NewIntermediateProfile name iss issPriv (pre ++ .withSubject n :: suf)
        fresh now = .ok p → p.Subject.subject = n) ∧
    (∀ (cn : String) (iss : Certificate) (issPriv : Option Nat)
      (pre suf : List WithOption) (n : PkixName) (fresh : Nat × Nat)
      (now : Int) (p : Profile),
      (∀ op ∈ suf, writesSubjectName op = false) →
      NewLeafProfile cn iss issPriv (pre ++ .withSubject n :: suf) fresh now =
        .ok p → p.Subject.subject = n) ∧
    (∀ (cn : String) (pre suf : List WithOption) (n : PkixName)
      (fresh : Nat × Nat) (now : Int) (p : Profile),
      (∀ op ∈ suf, writesSubjectName op = false) →
      NewSelfSignedLeafProfile cn (pre ++ .withSubject n :: suf) fresh now =
        .ok p → p.Subject.subject = n) ∧
    (∀ (sub iss : Certificate) (issPriv : Option Nat)
      (pre suf : List WithOption) (n : PkixName) (fresh : Nat × Nat)
      (p : Profile), (∀ op ∈ suf, writesSubjectName op = false) →
      NewLeafProfileWithTemplate sub iss issPriv (pre ++ .withSubject n :: suf)
        fresh = .ok p → p.Subject.subject = n) ∧
    (∀ (csr : CertificateRequest) (iss : Certificate) (issPriv : Option Nat)
      (pre suf : List WithOption) (n : PkixName) (fresh : Nat × Nat)
      (now : Int) (pk : Nat) (p : Profile), csr.publicKey = some pk →
      (∀ op ∈ suf, writesSubjectName op = false) →
      NewLeafProfileWithCSR csr iss issPriv (pre ++ .withSubject n :: suf)
        fresh now = .ok p → p.Subject.subject = n) := by
  refine ⟨?_, ?_, ?_, ?_, ?_, ?_, ?_⟩
  · intro name pre suf n fresh now p hsuf hp
    rw [root_ok] at hp
    injection hp with hq
    subst hq
    rw [selfSign_Subject]
    exact pipeline_lastWriter .root [defaultRootTemplate name now] 0 0 none
      pre suf n fresh hsuf (by simp)
  · intro crt pre suf n fresh p hsuf hp
    rw [rootWithTemplate_ok] at hp
    injection hp with hq
    subst hq
    rw [selfSign_Subject]
    exact pipeline_lastWriter .root [crt] 0 0 none pre suf n fresh hsuf
      (by simp)
  · intro name iss issPriv pre suf n fresh now p hsuf hp
    rw [intermediate_ok] at hp
    injection hp with hq
    subst hq
    exact pipeline_lastWriter .intermediate
      [defaultIntermediateTemplate name now, iss] 0 1 issPriv pre suf n fresh
      hsuf (by simp)
  · intro cn iss issPriv pre suf n fresh now p hsuf hp
    rw [leaf_ok] at hp
    injection hp with hq
    subst hq
    exact pipeline_lastWriter .leaf
      [defaultLeafTemplate { commonName := cn } iss.subject now, iss] 0 1
      issPriv pre suf n fresh hsuf (by simp)
  · intro cn pre suf n fresh now p hsuf hp
    rw [selfSignedLeaf_ok] at hp
    injection hp with hq
    subst hq
    rw [selfSign_Subject]
    exact pipeline_lastWriter .leaf
      [defaultLeafTemplate { commonName := cn } { commonName := cn } now] 0 0
      none pre suf n fresh hsuf (by simp)
  · intro sub iss issPriv pre suf n fresh p hsuf hp
    rw [leafTemplate_ok] at hp
    injection hp with hq
    subst hq
    rw [List.append_assoc, List.cons_append]
    exact pipeline_lastWriter .leaf [sub, iss] 0 1 issPriv pre
      (suf ++ [.withPublicKey sub.publicKey]) n fresh
      (writesSubjectName_append_pk suf sub.publicKey hsuf) (by simp)
  · intro csr iss issPriv pre suf n fresh now pk p hpk hsuf hp
    rw [leafCSR_ok csr iss issPriv _ fresh now pk hpk] at hp
    injection hp with hq
    subst hq
    rw [List.append_assoc, List.cons_append]
    exact pipeline_lastWriter .leaf [csrLeafCert csr iss now, iss] 0 1 issPriv
      pre (suf ++ [.withPublicKey (some pk)]) n fresh
      (writesSubjectName_append_pk suf (some pk) hsuf) (by simp)

/-- Witness for C2: two common-name-setting options at `NewRootProfile`;
the second one wins. -/
theorem c2_last_writer_wins_witness :
    ((NewRootProfile "r"
        [.withSubject { commonName := "a" }, .withSubject { commonName := "b" }]
        (1, 2) 0).toOption.getD default).Subject.subject =
      { commonName := "b" } :=
  c2_last_writer_wins.1 "r" [.withSubject { commonName := "a" }] []
    { commonName := "b" } (1, 2) 0
    ((NewRootProfile "r"
      [.withSubject { commonName := "a" }, .withSubject { commonName := "b" }]
      (1, 2) 0).toOption.getD default)
    (fun _ h => absurd h (List.not_mem_nil _)) rfl

/-- Claim C8: a Leaf profile derived from a certificate request copies the
request's subject, DNS names, email addresses, IP addresses, URIs and
opaque extensions verbatim (and in order) into the subject draft. -/
theorem c8_leaf_from_csr_fields :
    (∀ (csr : CertificateRequest) (iss : Certificate) (issPriv : Option Nat)
      (withOps : List WithOption) (fresh : Nat × Nat) (now : Int) (pk : Nat)
      (p : Profile), csr.publicKey = some pk →
      NewLeafProfileWithCSR csr iss issPriv withOps fresh now = .ok p →
        p.Subject.dnsNames = csr.dnsNames ∧
          p.Subject.emailAddresses = csr.emailAddresses ∧
          p.Subject.ipAddresses = csr.ipAddresses ∧
          p.Subject.uris = csr.uris ∧
          p.Subject.extraExtensions = csr.extensions) ∧
    ∀ (csr : CertificateRequest) (iss : Certificate) (issPriv : Option Nat)
      (withOps : List WithOption) (fresh : Nat × Nat) (now : Int) (pk : Nat)
      (p : Profile), csr.publicKey = some pk →
      (∀ op ∈ withOps, writesSubjectName op = false) →
      NewLeafProfileWithCSR csr iss issPriv withOps fresh now = .ok p →
        p.Subject.subject = csr.subject := by
  constructor
  · intro csr iss issPriv withOps fresh now pk p hpk hp
    rw [leafCSR_ok csr iss issPriv withOps fresh now pk hpk] at hp
    injection hp with hq
    subst hq
    refine ⟨?_, ?_, ?_, ?_, ?_⟩
    · exact (pipelineResult_Subject_stable (fun c => c.dnsNames)
        (fun _ _ _ => rfl) (fun _ _ => rfl) _ _ _ _ _ _ _ (by simp)).trans rfl
    · exact (pipelineResult_Subject_stable (fun c => c.emailAddresses)
        (fun _ _ _ => rfl) (fun _ _ => rfl) _ _ _ _ _ _ _ (by simp)).trans rfl
    · exact (pipelineResult_Subject_stable (fun c => c.ipAddresses)
        (fun _ _ _ => rfl) (fun _ _ => rfl) _ _ _ _ _ _ _ (by simp)).trans rfl
    · exact (pipelineResult_Subject_stable (fun c => c.uris)
        (fun _ _ _ => rfl) (fun _ _ => rfl) _ _ _ _ _ _ _ (by simp)).trans rfl
    · exact (pipelineResult_Subject_stable (fun c => c.extraExtensions)
        (fun _ _ _ => rfl) (fun _ _ => rfl) _ _ _ _ _ _ _ (by simp)).trans rfl
  · intro csr iss issPriv withOps fresh now pk p hpk hname hp
    rw [leafCSR_ok csr iss issPriv withOps fresh now pk hpk] at hp
    injection hp with hq
    subst hq
    exact (pipelineResult_Subject_cond (fun c => c.subject) writesSubjectName
      (fun q op h hw => applyOne_subjectName_pres q op h hw) .leaf
      [csrLeafCert csr iss now, iss] 0 1 issPriv
      (withOps ++ [.withPublicKey (some pk)]) fresh
      (writesSubjectName_append_pk withOps (some pk) hname)
      (by simp)).trans rfl

/-- Witness for C8 at a request with DNS names
`["a.example", "b.example"]`. -/
theorem c8_leaf_from_csr_fields_witness :
    (((NewLeafProfileWithCSR sampleCSR caCert (some 9) [] (1, 2) 0).toOption.getD
          default).Subject.dnsNames = ["a.example", "b.example"] ∧
        ((NewLeafProfileWithCSR sampleCSR caCert (some 9) [] (1, 2) 0).toOption.getD
          default).Subject.emailAddresses = sampleCSR.emailAddresses ∧
        ((NewLeafProfileWithCSR sampleCSR caCert (some 9) [] (1, 2) 0).toOption.getD
          default).Subject.ipAddresses = sampleCSR.ipAddresses ∧
        ((NewLeafProfileWithCSR sampleCSR caCert (some 9) [] (1, 2) 0).toOption.getD
          default).Subject.uris = sampleCSR.uris ∧
        ((NewLeafProfileWithCSR sampleCSR caCert (some 9) [] (1, 2) 0).toOption.getD
          default).Subject.extraExtensions = sampleCSR.extensions) ∧
      ((NewLeafProfileWithCSR sampleCSR caCert (some 9) [] (1, 2) 0).toOption.getD
        default).Subject.subject = sampleCSR.subject :=
  ⟨c8_leaf_from_csr_fields.1 sampleCSR caCert (some 9) [] (1, 2) 0 7
      ((NewLeafProfileWithCSR sampleCSR caCert (some 9) [] (1, 2) 0).toOption.getD
        default) rfl rfl,
    c8_leaf_from_csr_fields.2 sampleCSR caCert (some 9) [] (1, 2) 0 7
      ((NewLeafProfileWithCSR sampleCSR caCert (some 9) [] (1, 2) 0).toOption.getD
        default) rfl (fun _ h => absurd h (List.not_mem_nil _)) rfl⟩

/-- A trailing `WithPublicKey(some pk)` determines the constructed subject
public key; key generation does not overwrite a present key. -/
theorem pipeline_publicKey_last (role : Role) (store : List Certificate)
    (subRef issRef : Nat) (issPriv : Option Nat) (withOps : List WithOption)
    (pk : Nat) (fresh : Nat × Nat) :
    (pipelineResult role store subRef issRef issPriv
      (withOps ++ [.withPublicKey (some pk)]) fresh).subPub = some pk := by
  unfold pipelineResult
  rw [List.foldl_append]
  exact genKey_subPub_of_some _ fresh pk rfl

/-- Claim C10: `NewLeafProfileWithTemplate` and `NewLeafProfileWithCSR`
append the forced `WithPublicKey` after all caller options, so the
constructed profile's subject public key is the template's (respectively
the request's) declared key, even when the caller supplied a
public-key-setting option of their own. -/
theorem c10_forced_public_key :
    (∀ (sub iss : Certificate) (issPriv : Option Nat)
      (withOps : List WithOption) (fresh : Nat × Nat) (pk : Nat)
      (p : Profile), sub.publicKey = some pk →
      NewLeafProfileWithTemplate sub iss issPriv withOps fresh = .ok p →
        p.SubjectPublicKey = some pk) ∧
    ∀ (csr : CertificateRequest) (iss : Certificate) (issPriv : Option Nat)
      (withOps : List WithOption) (fresh : Nat × Nat) (now : Int) (pk : Nat)
      (p : Profile), csr.publicKey = some pk →
      NewLeafProfileWithCSR csr iss issPriv withOps fresh now = .ok p →
        p.SubjectPublicKey = some pk := by
  constructor
  · intro sub iss issPriv withOps fresh pk p hpk hp
    rw [leafTemplate_ok] at hp
    injection hp with hq
    subst hq
    show (pipelineResult .leaf [sub, iss] 0 1 issPriv
      (withOps ++ [.withPublicKey sub.publicKey]) fresh).subPub = some pk
    rw [hpk]
    exact pipeline_publicKey_last _ _ _ _ _ _ _ _
  · intro csr iss issPriv withOps fresh now pk p hpk hp
    rw [leafCSR_ok csr iss issPriv withOps fresh now pk hpk] at hp
    injection hp with hq
    subst hq
    exact pipeline_publicKey_last _ _ _ _ _ _ _ _

/-- A concrete leaf template carrying a declared public key. -/
def leafTplWithKey : Certificate :=
  { defaultLeafTemplate { commonName := "leaf" } { commonName := "ca" } 0 with
    publicKey := some 5 }

/-- Witness for C10: the template's key wins even over a caller-supplied
public-key option. -/
theorem c10_forced_public_key_witness :
    ((NewLeafProfileWithTemplate leafTplWithKey caCert (some 9)
        [.withPublicKey (some 99)] (1, 2)).toOption.getD
      default).SubjectPublicKey = some 5 :=
  c10_forced_public_key.1 leafTplWithKey caCert (some 9)
    [.withPublicKey (some 99)] (1, 2) 5
    ((NewLeafProfileWithTemplate leafTplWithKey caCert (some 9)
      [.withPublicKey (some 99)] (1, 2)).toOption.getD default) rfl rfl

end X509Util
